import Mathlib

/-!
Verification of the core logic of `fetch_summarize_jira/fastapi_backend.py`:
the Atlassian-Document-Format flattener `adf_to_text`, the retry wrapper
`with_retry`, the issue fetcher `fetch_jira_issue`, the summarizer
`llm_summarize_issue`, and the tool dispatcher `call_tool`.

Python values flowing through these functions are parsed JSON data:
`None`, strings, lists, and dicts (string-keyed).  They are modelled by the
mutually inductive type `JVal` below; dicts are ordered key/value lists with
first-match lookup (JSON objects have unique keys, so this coincides with
Python dict lookup).  JSON numbers and booleans are not modelled: no code
path exercised by the specification receives them (the flattener would raise
`AttributeError` on a bare number, and the summarizer degrades on any
non-object parse either way).
-/

set_option autoImplicit false

mutual

inductive JVal where
  | null : JVal
  | str : String → JVal
  | arr : JArr → JVal
  | obj : JObj → JVal

inductive JArr where
  | nil : JArr
  | cons : JVal → JArr → JArr

inductive JObj where
  | nil : JObj
  | cons : String → JVal → JObj → JObj

end

/-- First-match lookup, the model of Python `dict.get(key)` (JSON objects
have unique keys, so first match is the only match). -/
def JObj.lookup : JObj → String → Option JVal
  | .nil, _ => none
  | .cons k v rest, key => if k = key then some v else rest.lookup key

/-- Python truthiness test `not node` for a dict: true exactly for `{}`. -/
def JObj.isEmpty : JObj → Bool
  | .nil => true
  | .cons _ _ _ => false

/-- The value of `node.get("type")` as a string tag: `adf_to_text` only
compares it with the string literals "text", "hardBreak" and "paragraph",
so a missing key or a non-string value (never equal to those literals in
Python) is uniformly `none`. -/
def typeName (kvs : JObj) : Option String :=
  match kvs.lookup "type" with
  | some (.str s) => some s
  | _ => none

/-- `node.get("text", "")` for a text node, in the string-valued model of
the flattener: a present "text" value is its string, an absent one is the
`""` default.  A present non-string "text" value is collapsed to `""`
here; CPython instead returns the raw value, which a paragraph f-string
then renders — that faithful behavior is modelled by `adf_to_textPy`
below, and `adfPy_eq_adf` proves the two models agree on every tree whose
text nodes carry string (or absent) text values. -/
def textValue (kvs : JObj) : String :=
  match kvs.lookup "text" with
  | some (.str s) => s
  | _ => ""

mutual

/-- `adf_to_text` (fastapi_backend.py lines 50-65), the ADF flattener.
`JVal.null` and the empty string/list are the falsy inputs caught by
`if not node: return ""`; for a string the falsy case returns the string
itself, and for a list it returns the empty concatenation, so those two
arms need no separate emptiness test.  The empty dict `{}` is also falsy
in Python and returns `""` via the early return, which coincides with what
the general container arm computes for it.  The dict arm dispatches on
`node.get("type")` and recurses with `adf_to_text(node.get("content", []))`,
appending the trailing newline for paragraph nodes. -/
def adf_to_text : JVal → String
  | .null => ""
  | .str s => s
  | .arr xs => adf_to_textArr xs
  | .obj kvs =>
    if kvs.isEmpty then ""
    else if typeName kvs = some "text" then textValue kvs
    else if typeName kvs = some "hardBreak" then "\n"
    else if typeName kvs = some "paragraph" then contentText kvs ++ "\n"
    else contentText kvs
termination_by structural v => v

/-- `"".join(adf_to_text(item) for item in node)` for a list node. -/
def adf_to_textArr : JArr → String
  | .nil => ""
  | .cons v rest => adf_to_text v ++ adf_to_textArr rest
termination_by structural xs => xs

/-- `adf_to_text(node.get("content", []))`: flatten the first value stored
under "content", or the default `[]` (which flattens to `""`) when the key
is absent. -/
def contentText : JObj → String
  | .nil => ""
  | .cons k v rest => if k = "content" then adf_to_text v else contentText rest
termination_by structural kvs => kvs

end

mutual

/-- The reference flattener transcribed from the specification, section 4.1:
absent/empty input gives the empty string, a plain string is returned
unchanged, a sequence is flattened elementwise and concatenated with no
separator, and container nodes dispatch on their type tag. -/
def flatten_spec : JVal → String
  | .null => ""
  | .str s => s
  | .arr xs => flatten_specArr xs
  | .obj kvs =>
    if typeName kvs = some "text" then textValue kvs
    else if typeName kvs = some "hardBreak" then "\n"
    else if typeName kvs = some "paragraph" then flatten_specContent kvs ++ "\n"
    else flatten_specContent kvs
termination_by structural v => v

/-- Specification: concatenation of the flattening of each element, in
order, with no separator. -/
def flatten_specArr : JArr → String
  | .nil => ""
  | .cons v rest => flatten_spec v ++ flatten_specArr rest
termination_by structural xs => xs

/-- Specification: flatten the child sequence stored under "content",
empty if absent. -/
def flatten_specContent : JObj → String
  | .nil => ""
  | .cons k v rest => if k = "content" then flatten_spec v else flatten_specContent rest
termination_by structural kvs => kvs

end

/-- Shorthand for an ADF text leaf `{"type": "text", "text": s}`. -/
def textLeaf (s : String) : JVal :=
  .obj (.cons "type" (.str "text") (.cons "text" (.str s) .nil))

/-- Shorthand for an ADF paragraph node with the given content list. -/
def paragraphNode (content : JArr) : JVal :=
  .obj (.cons "type" (.str "paragraph") (.cons "content" (.arr content) .nil))

/-- The two-level nesting paragraph[paragraph[text "a", text "b", text "c"]]
named by claim C1. -/
def twoLevelDoc : JVal :=
  paragraphNode (.cons (paragraphNode
    (.cons (textLeaf "a") (.cons (textLeaf "b") (.cons (textLeaf "c") .nil)))) .nil)

/-- A fragment of flattener output: either the content of one text leaf of
the input tree, or one emitted newline (for a hardBreak node or a closing
paragraph). -/
inductive Piece where
  | leaf : String → Piece
  | newline : Piece
deriving DecidableEq

def renderPiece : Piece → String
  | .leaf s => s
  | .newline => "\n"

def renderPieces : List Piece → String
  | [] => ""
  | p :: rest => renderPiece p ++ renderPieces rest

def pieceLeaf : Piece → Option String
  | .leaf s => some s
  | .newline => none

mutual

/-- The ordered sequence of output fragments of `adf_to_text`: one `leaf`
per text leaf reached, one `newline` per hardBreak node and per closing
paragraph, in traversal order. -/
def textPieces : JVal → List Piece
  | .null => []
  | .str s => [.leaf s]
  | .arr xs => textPiecesArr xs
  | .obj kvs =>
    if kvs.isEmpty then []
    else if typeName kvs = some "text" then [.leaf (textValue kvs)]
    else if typeName kvs = some "hardBreak" then [.newline]
    else if typeName kvs = some "paragraph" then contentPieces kvs ++ [.newline]
    else contentPieces kvs
termination_by structural v => v

def textPiecesArr : JArr → List Piece
  | .nil => []
  | .cons v rest => textPieces v ++ textPiecesArr rest
termination_by structural xs => xs

def contentPieces : JObj → List Piece
  | .nil => []
  | .cons k v rest => if k = "content" then textPieces v else contentPieces rest
termination_by structural kvs => kvs

end

mutual

/-- The text-leaf contents of a rich-text tree, in traversal (leaf) order:
plain strings and the text values of "text" nodes. -/
def leafTexts : JVal → List String
  | .null => []
  | .str s => [s]
  | .arr xs => leafTextsArr xs
  | .obj kvs =>
    if kvs.isEmpty then []
    else if typeName kvs = some "text" then [textValue kvs]
    else if typeName kvs = some "hardBreak" then []
    else leafTextsContent kvs
termination_by structural v => v

def leafTextsArr : JArr → List String
  | .nil => []
  | .cons v rest => leafTexts v ++ leafTextsArr rest
termination_by structural xs => xs

def leafTextsContent : JObj → List String
  | .nil => []
  | .cons k v rest => if k = "content" then leafTexts v else leafTextsContent rest
termination_by structural kvs => kvs

end

/-- Python `j.get(key, default)`.  A non-dict receiver raises
`AttributeError` in CPython; it is modelled as the default value and is
never exercised by the claims. -/
def jgetD : JVal → String → JVal → JVal
  | .obj kvs, key, dflt => (kvs.lookup key).getD dflt
  | _, _, dflt => dflt

/-- Python `j.get(key)`: absent keys give `None`. -/
def jget (j : JVal) (key : String) : JVal :=
  jgetD j key .null

/-- One entry of the canonical issue's comment list
(fastapi_backend.py lines 120-127). -/
structure CommentRecord where
  author : JVal
  created : JVal
  body : String

/-- The canonical issue record assembled by `fetch_jira_issue`
(fastapi_backend.py lines 109-129).  Raw JSON fields keep type `JVal`
(they may be absent, i.e. `None`); the flattened description and comment
bodies are strings. -/
structure CanonicalIssue where
  key : JVal
  summary : JVal
  status : JVal
  priority : JVal
  assignee : JVal
  reporter : JVal
  created : JVal
  updated : JVal
  labels : JVal
  description : String
  comments : List CommentRecord
  url : String

/-- The elements iterated by `for c in comments`.  Only array payloads are
modelled: CPython would iterate the keys of a dict and raise on the other
shapes, and no claim exercises those. -/
def asArr : JVal → JArr
  | .arr xs => xs
  | _ => .nil

/-- The comment comprehension of `fetch_jira_issue`
(fastapi_backend.py lines 120-127). -/
def buildComments : JArr → List CommentRecord
  | .nil => []
  | .cons c rest =>
    { author := jget (jgetD c "author" (.obj .nil)) "displayName"
      created := jget c "created"
      body := adf_to_text (jgetD c "body" (.obj .nil)) } :: buildComments rest

/-- The canonical-issue assembly of `fetch_jira_issue`
(fastapi_backend.py lines 108-129), from the parsed issue payload and the
parsed comments payload. -/
def buildIssue (base_url issue_key : String) (issue comments : JVal) : CanonicalIssue :=
  let f := jgetD issue "fields" (.obj .nil)
  { key := jget issue "key"
    summary := jget f "summary"
    status := jget (jgetD f "status" (.obj .nil)) "name"
    priority := jget (jgetD f "priority" (.obj .nil)) "name"
    assignee := jget (jgetD f "assignee" (.obj .nil)) "displayName"
    reporter := jget (jgetD f "reporter" (.obj .nil)) "displayName"
    created := jget f "created"
    updated := jget f "updated"
    labels := jgetD f "labels" (.arr .nil)
    description := adf_to_text (jgetD f "description" (.obj .nil))
    comments := buildComments (asArr comments)
    url := base_url ++ "/browse/" ++ issue_key }

/-- A sample issue payload used to witness the canonical-issue invariant. -/
def sampleIssueJson : JVal :=
  .obj (.cons "key" (.str "K")
    (.cons "fields" (.obj (.cons "description" (textLeaf "d") .nil)) .nil))

/-- A sample comments payload with one comment whose body is the text
leaf "b". -/
def sampleCommentsJson : JVal :=
  .arr (.cons (.obj (.cons "body" (textLeaf "b") .nil)) .nil)

/-- The observable behavior of one `with_retry` run: the returned value or
raised error, the number of invocations of the wrapped operation, and the
backoff delays slept, in order.  `result = .error none` models reaching
`raise last_err` with `last_err` still at its initial `None` (CPython then
raises a `TypeError`); `.error (some e)` models re-raising the recorded
exception `e`.  Delays are exact rationals: 0.5 and its doublings are
exactly representable binary floats, so rational arithmetic coincides with
the Python float arithmetic `base_sleep * (2 ** i)`. -/
structure RetryTrace (ε α : Type) where
  result : Except (Option ε) α
  calls : Nat
  sleeps : List ℚ

/-- The loop of `with_retry` (fastapi_backend.py lines 71-79).  `rem` is
the number of loop iterations remaining, `i` the current 0-indexed attempt
(so `rem = retries - i` throughout), and `last_err` the recorded error.
The wrapped operation is modelled as a function from the attempt index to
that attempt's outcome.  The guard `i < retries - 1` for sleeping is
equivalent to `rem ≠ 0` after the current iteration is consumed. -/
def with_retryGo {ε α : Type} (op : Nat → Except ε α) (base_sleep : ℚ) :
    Nat → Nat → Option ε → RetryTrace ε α
  | 0, _, last_err => ⟨.error last_err, 0, []⟩
  | rem + 1, i, _ =>
    match op i with
    | .ok v => ⟨.ok v, 1, []⟩
    | .error e =>
      let r := with_retryGo op base_sleep rem (i + 1) (some e)
      ⟨r.result, r.calls + 1,
        if rem = 0 then r.sleeps else base_sleep * 2 ^ i :: r.sleeps⟩

/-- `with_retry` (fastapi_backend.py lines 67-79).  `retries` is an `Int`
because the Python parameter is a signed int: `range(retries)` has
`retries.toNat` elements, which is 0 for every non-positive argument. -/
def with_retry {ε α : Type} (op : Nat → Except ε α) (retries : Int) (base_sleep : ℚ) :
    RetryTrace ε α :=
  with_retryGo op base_sleep retries.toNat 0 none

/-- The exceptions observable in this module: `HTTPException(status, detail)`,
`ValueError(msg)`, any other exception identified by its message, and the
`TypeError` produced by `raise None`. -/
inductive AppError where
  | http : Nat → String → AppError
  | value : String → AppError
  | exn : String → AppError
  | noneRaised : AppError
deriving DecidableEq

/-- What `raise last_err` raises when the retry loop ends with an error:
the recorded exception, or (`last_err` still `None`) the `TypeError` of
raising `None`. -/
def raiseRetry : Option AppError → AppError
  | some e => e
  | none => .noneRaised

/-- The part of an `httpx` response read by `fetch_jira_issue`: the status
code, the body text, and the parsed JSON body. -/
structure HttpResponse where
  status_code : Nat
  text : String
  json : JVal

/-- The three required Jira connection settings.  `jira_base_url` is the
value of `JIRA_BASE_URL` after `.rstrip("/")`; an unset variable gives `""`
(the `os.getenv` default), which is the falsy value `ensure_env` tests. -/
structure Env where
  jira_base_url : String
  jira_email : String
  jira_api_token : String

/-- The list comprehension of `ensure_env` (fastapi_backend.py lines 43-46):
names of the required settings whose value is falsy, in dict order. -/
def missingEnv (env : Env) : List String :=
  ([("JIRA_BASE_URL", env.jira_base_url), ("JIRA_EMAIL", env.jira_email),
    ("JIRA_API_TOKEN", env.jira_api_token)].filter fun kv => kv.2 == "").map (·.1)

/-- `ensure_env` (fastapi_backend.py lines 42-48): raise
`HTTPException(500, "Missing environment variables: ...")` when any
required setting is unset. -/
def ensure_env (env : Env) : Except AppError Unit :=
  if missingEnv env = [] then .ok ()
  else .error (.http 500
    ("Missing environment variables: " ++ String.intercalate ", " (missingEnv env)))

/-- The observable behavior of one `fetch_jira_issue` run: the canonical
issue or the raised exception, and how many network requests were issued
to each of the two endpoints. -/
structure FetchTrace where
  result : Except AppError CanonicalIssue
  issueCalls : Nat
  commentCalls : Nat

/-- `fetch_jira_issue` (fastapi_backend.py lines 81-129).  The network is
modelled by one attempt-indexed outcome oracle per endpoint (`get_issue`,
`get_comments`); an `Except.error` models the request raising an exception,
an `Except.ok` a response.  Client construction, authentication and the
timeout configuration have no observable effect here and are not modelled.
As in the source, both `with_retry` calls (with the default 3 retries and
0.5s base sleep) happen before either status code is inspected. -/
def fetch_jira_issue (env : Env) (issue_key : String)
    (getIssue getComments : Nat → Except AppError HttpResponse) : FetchTrace :=
  match ensure_env env with
  | .error e => ⟨.error e, 0, 0⟩
  | .ok _ =>
    let t1 := with_retry getIssue 3 (1/2)
    match t1.result with
    | .error e => ⟨.error (raiseRetry e), t1.calls, 0⟩
    | .ok issue_response =>
      let t2 := with_retry getComments 3 (1/2)
      match t2.result with
      | .error e => ⟨.error (raiseRetry e), t1.calls, t2.calls⟩
      | .ok comment_response =>
        if issue_response.status_code ≠ 200 then
          ⟨.error (.http issue_response.status_code
            ("Failed to fetch issue: " ++ issue_response.text)), t1.calls, t2.calls⟩
        else if comment_response.status_code ≠ 200 then
          ⟨.error (.http comment_response.status_code
            ("Failed to fetch comments: " ++ comment_response.text)), t1.calls, t2.calls⟩
        else
          ⟨.ok (buildIssue env.jira_base_url issue_key issue_response.json
            comment_response.json), t1.calls, t2.calls⟩

/-- The dict returned by `llm_summarize_issue`.  Field values keep type
`JVal`: in the parse path they are raw values taken from the model's JSON
object (Python puts them in the result dict unchecked). -/
structure AnalysisResult where
  summary : JVal
  root_cause : JVal
  confidence : JVal
  evidence : JVal

mutual

/-- Python `repr` of a parsed-JSON value, used by `str`/f-strings for
containers.  String escaping inside `repr` is not refined; only the `str`
and `null` arms are exercised by the claims. -/
def pyRepr : JVal → String
  | .null => "None"
  | .str s => "\x27" ++ s ++ "\x27"
  | .arr xs => "[" ++ pyReprArr xs ++ "]"
  | .obj kvs => "\x7b" ++ pyReprObj kvs ++ "\x7d"
termination_by structural v => v

def pyReprArr : JArr → String
  | .nil => ""
  | .cons v .nil => pyRepr v
  | .cons v rest => pyRepr v ++ ", " ++ pyReprArr rest
termination_by structural xs => xs

def pyReprObj : JObj → String
  | .nil => ""
  | .cons k v .nil => "\x27" ++ k ++ "\x27: " ++ pyRepr v
  | .cons k v rest => "\x27" ++ k ++ "\x27: " ++ pyRepr v ++ ", " ++ pyReprObj rest
termination_by structural kvs => kvs

end

/-- Python `str()` as used by an f-string: `None` renders as "None",
a string renders as itself, containers render via `repr`. -/
def pyStr : JVal → String
  | .null => "None"
  | .str s => s
  | v => pyRepr v

/-- A value returned by the untyped Python flattener: a `str`, or a raw
non-string value (only ever the "text" value of a text node, passed
through unchanged). -/
inductive PyRet where
  | s : String → PyRet
  | raw : JVal → PyRet

/-- What an f-string renders a flattener result as: a string stays itself,
a raw value goes through `str()`. -/
def pyRet_fstr : PyRet → String
  | .s c => c
  | .raw v => pyStr v

mutual

/-- The faithful, untyped model of `adf_to_text` (fastapi_backend.py
lines 50-65) on the full tree domain.  It differs from the string-valued
`adf_to_text` in one arm: a text node whose "text" value is present but
not a string returns that raw value (`PyRet.raw`), exactly as
`return node.get("text", "")` does in CPython.  A raw value reaching the
`"".join` of a list raises `TypeError` (`Except.error`); a raw value
reaching a paragraph arm is rendered by the f-string `f"{child}\n"`; a
raw value produced under a non-paragraph container is returned onward
unchanged. -/
def adf_to_textPy : JVal → Except Unit PyRet
  | .null => .ok (.s "")
  | .str s => .ok (.s s)
  | .arr xs =>
    match adf_to_textPyArr xs with
    | .error e => .error e
    | .ok c => .ok (.s c)
  | .obj kvs =>
    if kvs.isEmpty then .ok (.s "")
    else if typeName kvs = some "text" then
      match kvs.lookup "text" with
      | some (.str s) => .ok (.s s)
      | some w => .ok (.raw w)
      | none => .ok (.s "")
    else if typeName kvs = some "hardBreak" then .ok (.s "\n")
    else
      match contentTextPy kvs with
      | .error e => .error e
      | .ok child =>
        if typeName kvs = some "paragraph" then .ok (.s (pyRet_fstr child ++ "\n"))
        else .ok child
termination_by structural v => v

/-- `"".join(adf_to_text(item) for item in node)`: items are consumed in
order; an item raising propagates, and a non-string item makes `join`
raise `TypeError`. -/
def adf_to_textPyArr : JArr → Except Unit String
  | .nil => .ok ""
  | .cons v rest =>
    match adf_to_textPy v with
    | .error e => .error e
    | .ok (.raw _) => .error ()
    | .ok (.s c) =>
      match adf_to_textPyArr rest with
      | .error e => .error e
      | .ok cs => .ok (c ++ cs)
termination_by structural xs => xs

/-- `adf_to_text(node.get("content", []))` in the faithful model. -/
def contentTextPy : JObj → Except Unit PyRet
  | .nil => .ok (.s "")
  | .cons k v rest => if k = "content" then adf_to_textPy v else contentTextPy rest
termination_by structural kvs => kvs

end

/-- The well-formedness of a text node's payload: if the node's type is
"text", its "text" value must be absent or a string.  Trees satisfying
this recursively are exactly those on which the string-valued model
`adf_to_text` agrees with the faithful `adf_to_textPy`. -/
def textOk (kvs : JObj) : Bool :=
  if typeName kvs = some "text" then
    match kvs.lookup "text" with
    | some (.str _) => true
    | none => true
    | some _ => false
  else true

mutual

/-- Every node of type "text" in the tree carries a string (or absent)
"text" value. -/
def wfText : JVal → Bool
  | .null => true
  | .str _ => true
  | .arr xs => wfTextArr xs
  | .obj kvs => textOk kvs && wfTextObj kvs
termination_by structural v => v

def wfTextArr : JArr → Bool
  | .nil => true
  | .cons v rest => wfText v && wfTextArr rest
termination_by structural xs => xs

def wfTextObj : JObj → Bool
  | .nil => true
  | .cons _ v rest => wfText v && wfTextObj rest
termination_by structural kvs => kvs

end

/-- The tree paragraph{"content": text-node{"text": {"f": "v"}}}: its text
node stores a dict, not a string, under "text". -/
def cexDoc : JVal :=
  .obj (.cons "type" (.str "paragraph")
    (.cons "content"
      (.obj (.cons "type" (.str "text")
        (.cons "text" (.obj (.cons "f" (.str "v") .nil)) .nil))) .nil))

/-- `llm_summarize_issue` (fastapi_backend.py lines 131-185).  The client
is configured exactly when `OPENAI_API_KEY` is truthy, i.e. non-empty.
With no client, the deterministic degraded result of lines 136-141 is
returned.  With a client, the module's missing `import json` makes the
f-string of line 158 (which evaluates `json.dumps(payload)`) raise
`NameError("name 'json' is not defined")` before the model is ever
invoked, so the prompt construction, the model call and the parse step
are dead code.  The second component counts model invocations. -/
def llm_summarize_issue (openai_api_key : String) (issue : CanonicalIssue) :
    Except AppError AnalysisResult × Nat :=
  if openai_api_key = "" then
    (.ok { summary := .str (pyStr issue.key ++ " is " ++ pyStr issue.status ++
             " with priority " ++ pyStr issue.priority ++ ".")
           root_cause := .str "OpenAI key not configured; LLM analysis unavailable."
           confidence := .str "low"
           evidence := .arr (.cons issue.key .nil) }, 0)
  else
    (.error (.exn "name \x27json\x27 is not defined"), 0)

/-- The whitespace stripped by Python `str.strip()` (ASCII part). -/
def isPyWs (c : Char) : Bool :=
  c = ' ' || c = '\t' || c = '\n' || c = '\r' || c = '\x0b' || c = '\x0c'

/-- JSON inter-token whitespace. -/
def isJsonWs (c : Char) : Bool :=
  c = ' ' || c = '\t' || c = '\n' || c = '\r'

def skipWsChars : List Char → List Char
  | [] => []
  | c :: rest => if isJsonWs c then skipWsChars rest else c :: rest

/-- Python `str.strip()` with no argument: drop leading and trailing
whitespace. -/
def pyStrip (s : String) : String :=
  String.mk (((s.toList.dropWhile isPyWs).reverse.dropWhile isPyWs).reverse)

/-- Strip `pat` as a prefix of the input, if possible. -/
def stripPre : List Char → List Char → Option (List Char)
  | [], cs => some cs
  | _ :: _, [] => none
  | p :: ps, c :: cs => if p = c then stripPre ps cs else none

/-- Python `s.replace(pat, "")` for non-empty `pat`: remove occurrences
left to right, non-overlapping.  Fuelled by the input length, which
suffices because every step consumes at least one character. -/
def removeOcc (pat : List Char) : Nat → List Char → List Char
  | 0, cs => cs
  | _ + 1, [] => []
  | fuel + 1, c :: cs =>
    match stripPre pat (c :: cs) with
    | some rest => removeOcc pat fuel rest
    | none => c :: removeOcc pat fuel cs

def pyReplaceRemove (s pat : String) : String :=
  String.mk (removeOcc pat.toList s.toList.length s.toList)

/-- The body of a JSON string after the opening quote: returns the decoded
characters and the input after the closing quote.  The common backslash
escapes are handled; `\u` escapes are rejected (no claim uses them). -/
def parseStrChars : List Char → Except Unit (List Char × List Char)
  | [] => .error ()
  | c :: rest =>
    if c = '"' then .ok ([], rest)
    else if c = '\\' then
      match rest with
      | [] => .error ()
      | e :: rest2 =>
        let esc : Option Char :=
          if e = '"' then some '"'
          else if e = '\\' then some '\\'
          else if e = '/' then some '/'
          else if e = 'n' then some '\n'
          else if e = 't' then some '\t'
          else if e = 'r' then some '\r'
          else if e = 'b' then some '\x08'
          else if e = 'f' then some '\x0c'
          else none
        match esc with
        | some ch =>
          match parseStrChars rest2 with
          | .ok (cs, r) => .ok (ch :: cs, r)
          | .error _ => .error ()
        | none => .error ()
    else
      match parseStrChars rest with
      | .ok (cs, r) => .ok (c :: cs, r)
      | .error _ => .error ()

mutual

/-- A recursive-descent model of `json.loads` restricted to null, strings,
arrays and objects.  Numbers and booleans are rejected; in
`llm_summarize_issue` a parsed non-object value degrades anyway (the
`.get` calls inside the `try` raise `AttributeError`), so the restriction
only matters for objects containing numeric fields, which no claim
exercises.  The fuel argument bounds recursion depth; the top-level entry
supplies more fuel than any input can consume. -/
def parseVal : Nat → List Char → Except Unit (JVal × List Char)
  | 0, _ => .error ()
  | fuel + 1, cs =>
    match skipWsChars cs with
    | [] => .error ()
    | c :: rest =>
      if c = '"' then
        match parseStrChars rest with
        | .ok (s, r) => .ok (.str (String.mk s), r)
        | .error _ => .error ()
      else if c = '\x7b' then
        match skipWsChars rest with
        | '\x7d' :: r => .ok (.obj .nil, r)
        | _ =>
          match parseObjRest fuel rest with
          | .ok (o, r) => .ok (.obj o, r)
          | .error _ => .error ()
      else if c = '[' then
        match skipWsChars rest with
        | ']' :: r => .ok (.arr .nil, r)
        | _ =>
          match parseArrRest fuel rest with
          | .ok (xs, r) => .ok (.arr xs, r)
          | .error _ => .error ()
      else if c = 'n' then
        match rest with
        | 'u' :: 'l' :: 'l' :: r => .ok (.null, r)
        | _ => .error ()
      else .error ()
termination_by structural fuel _x => fuel

/-- One or more `"key": value` members followed by the closing brace. -/
def parseObjRest : Nat → List Char → Except Unit (JObj × List Char)
  | 0, _ => .error ()
  | fuel + 1, cs =>
    match skipWsChars cs with
    | '"' :: rest =>
      match parseStrChars rest with
      | .ok (k, r1) =>
        match skipWsChars r1 with
        | ':' :: r2 =>
          match parseVal fuel r2 with
          | .ok (v, r3) =>
            match skipWsChars r3 with
            | ',' :: r4 =>
              match parseObjRest fuel r4 with
              | .ok (o, r5) => .ok (.cons (String.mk k) v o, r5)
              | .error _ => .error ()
            | '\x7d' :: r4 => .ok (.cons (String.mk k) v .nil, r4)
            | _ => .error ()
          | .error _ => .error ()
        | _ => .error ()
      | .error _ => .error ()
    | _ => .error ()
termination_by structural fuel _x => fuel

/-- One or more array elements followed by the closing bracket. -/
def parseArrRest : Nat → List Char → Except Unit (JArr × List Char)
  | 0, _ => .error ()
  | fuel + 1, cs =>
    match parseVal fuel cs with
    | .ok (v, r1) =>
      match skipWsChars r1 with
      | ',' :: r2 =>
        match parseArrRest fuel r2 with
        | .ok (xs, r3) => .ok (.cons v xs, r3)
        | .error _ => .error ()
      | ']' :: r2 => .ok (.cons v .nil, r2)
      | _ => .error ()
    | .error _ => .error ()
termination_by structural fuel _x => fuel

end

/-- `json.loads`: parse one value and require only whitespace after it. -/
def json_loads (s : String) : Except Unit JVal :=
  match parseVal (s.toList.length + 1) s.toList with
  | .ok (v, rest) => if (skipWsChars rest).isEmpty then .ok v else .error ()
  | .error _ => .error ()

/-- The result-dict mapping of a successfully parsed JSON object
(fastapi_backend.py lines 173-178): present keys are copied, confidence
defaults to "low", evidence to the empty list. -/
def analysisFromObj (kvs : JObj) : AnalysisResult :=
  { summary := (kvs.lookup "summary").getD (.str "")
    root_cause := (kvs.lookup "root_cause").getD (.str "")
    confidence := (kvs.lookup "confidence").getD (.str "low")
    evidence := (kvs.lookup "evidence").getD (.arr .nil) }

/-- The response-parsing pipeline of `llm_summarize_issue`
(fastapi_backend.py lines 169-185), modelled separately because the
missing `import json` makes it dead code.  `text` is
`(response.output_text or "").strip()`; `cleaned` removes every
occurrence of the two fence markers and strips again; a parse failure or
a parsed non-object (whose `.get` raises `AttributeError` inside the
`try`) degrades to the templated fallback, where `text or "LLM parse
failed."` picks the notice exactly when `text` is empty. -/
def parse_llm_output (output_text : Option String) (issue_key : JVal) : AnalysisResult :=
  let text := pyStrip (output_text.getD "")
  let cleaned := pyStrip (pyReplaceRemove (pyReplaceRemove text "```json") "```")
  match json_loads cleaned with
  | .ok (.obj kvs) => analysisFromObj kvs
  | _ =>
    { summary := .str (if text = "" then "LLM parse failed." else text)
      root_cause := .str "Unable to parse structured root cause from model output."
      confidence := .str "low"
      evidence := .arr (.cons issue_key .nil) }

/-- A concrete canonical issue used to evaluate the summarizer. -/
def sampleIssue : CanonicalIssue :=
  { key := .str "PROJ-1", summary := .null, status := .str "Open",
    priority := .str "High", assignee := .null, reporter := .null,
    created := .null, updated := .null, labels := .arr .nil,
    description := "", comments := [],
    url := "https://jira.example.com/browse/PROJ-1" }

/-- Python truthiness of a parsed-JSON value: `None`, `""`, `[]` and `{}`
are falsy. -/
def pyFalsy : JVal → Bool
  | .null => true
  | .str s => s == ""
  | .arr .nil => true
  | .arr (.cons _ _) => false
  | .obj .nil => true
  | .obj (.cons _ _ _) => false

/-- Python `str(e)` for the modelled exceptions: Starlette's
`HTTPException.__str__` renders "{status_code}: {detail}", `ValueError`
and other exceptions render their message, and `raise None` raises
`TypeError("exceptions must derive from BaseException")`. -/
def errStr : AppError → String
  | .http status detail => toString status ++ ": " ++ detail
  | .value msg => msg
  | .exn msg => msg
  | .noneRaised => "exceptions must derive from BaseException"

/-- The `result` payload of a successful tool call: the canonical issue
for `fetch_jira`, or the fetch timestamp / issue / analysis triple for
`fetch_and_summarize`. -/
inductive ToolResult where
  | issue : CanonicalIssue → ToolResult
  | fetchSummary : String → CanonicalIssue → AnalysisResult → ToolResult

/-- The response envelope (`ToolCallResponse`, fastapi_backend.py lines
33-37).  The `execution_time` keyword passed at each construction site is
not a declared field; pydantic ignores the extra keyword, so it is not
modelled. -/
structure ToolCallResponse where
  success : Bool
  tool_name : String
  result : Option ToolResult
  error : Option String

/-- The observable behavior of one dispatcher run: the envelope and how
many times each downstream component was invoked. -/
structure DispatchTrace where
  response : ToolCallResponse
  fetchCalls : Nat
  llmCalls : Nat

/-- `call_tool` (fastapi_backend.py lines 216-264).  The downstream
components are modelled as outcome oracles: `fetchOp` is what one
`fetch_jira_issue` invocation returns or raises for this request's issue
key, `llmOp` likewise for `llm_summarize_issue` on the fetched issue;
`now` is the `fetched_at` timestamp.  The `try/except` of the source is
folded in: every raised error (missing parameter `ValueError`, downstream
exception, unknown-tool `ValueError`) becomes an envelope with
success=false and `str(e)` as the error. -/
def call_tool (internal_api_token : String) (x_internal_token : Option String)
    (tool_name : String) (parameters : JVal) (now : String)
    (fetchOp : Except AppError CanonicalIssue)
    (llmOp : CanonicalIssue → Except AppError AnalysisResult) : DispatchTrace :=
  if internal_api_token ≠ "" ∧ x_internal_token ≠ some internal_api_token then
    ⟨⟨false, tool_name, none, some "Unauthorized"⟩, 0, 0⟩
  else if pyFalsy (jget parameters "issue_key") then
    ⟨⟨false, tool_name, none, some "Missing required parameter: issue_key"⟩, 0, 0⟩
  else if tool_name = "fetch_jira" then
    match fetchOp with
    | .ok issue => ⟨⟨true, tool_name, some (.issue issue), none⟩, 1, 0⟩
    | .error e => ⟨⟨false, tool_name, none, some (errStr e)⟩, 1, 0⟩
  else if tool_name = "fetch_and_summarize" then
    match fetchOp with
    | .error e => ⟨⟨false, tool_name, none, some (errStr e)⟩, 1, 0⟩
    | .ok issue =>
      match llmOp issue with
      | .error e => ⟨⟨false, tool_name, none, some (errStr e)⟩, 1, 1⟩
      | .ok analysis =>
        ⟨⟨true, tool_name, some (.fetchSummary now issue analysis), none⟩, 1, 1⟩
  else
    ⟨⟨false, tool_name, none, some ("Unknown tool: " ++ tool_name)⟩, 0, 0⟩


mutual

theorem adf_to_text_eq_flatten_spec : (v : JVal) → adf_to_text v = flatten_spec v
  | .null => rfl
  | .str _ => rfl
  | .arr xs => by
    simp only [adf_to_text, flatten_spec]
    exact adf_to_textArr_eq xs
  | .obj kvs => by
    cases kvs with
    | nil => rfl
    | cons k v rest =>
      simp only [adf_to_text, flatten_spec, JObj.isEmpty, Bool.false_eq_true, if_false]
      rw [contentText_eq (.cons k v rest)]
termination_by structural v => v

theorem adf_to_textArr_eq : (xs : JArr) → adf_to_textArr xs = flatten_specArr xs
  | .nil => rfl
  | .cons v rest => by
    simp only [adf_to_textArr, flatten_specArr]
    rw [adf_to_text_eq_flatten_spec v, adf_to_textArr_eq rest]
termination_by structural xs => xs

theorem contentText_eq : (kvs : JObj) → contentText kvs = flatten_specContent kvs
  | .nil => rfl
  | .cons k v rest => by
    simp only [contentText, flatten_specContent]
    rw [adf_to_text_eq_flatten_spec v, contentText_eq rest]
termination_by structural kvs => kvs

end

/-- C1: the flattener `adf_to_text` agrees with the reference recursive
definition of specification section 4.1 on every input tree, and the
two-level nesting paragraph[paragraph[text "a", text "b", text "c"]]
flattens to "abc\n\n". -/
theorem adf_to_text_matches_reference :
    (∀ v : JVal, adf_to_text v = flatten_spec v) ∧ adf_to_text twoLevelDoc = "abc\n\n" :=
  ⟨adf_to_text_eq_flatten_spec, rfl⟩

theorem adf_to_text_matches_reference_witness :
    adf_to_text (.obj (.cons "type" (.str "hardBreak") .nil)) =
      flatten_spec (.obj (.cons "type" (.str "hardBreak") .nil)) :=
  adf_to_text_matches_reference.1 (.obj (.cons "type" (.str "hardBreak") .nil))

theorem renderPieces_append (a b : List Piece) :
    renderPieces (a ++ b) = renderPieces a ++ renderPieces b := by
  induction a with
  | nil => simp [renderPieces, String.empty_append]
  | cons p rest ih => simp [renderPieces, ih, String.append_assoc]

mutual

theorem adf_renderPieces : (v : JVal) → adf_to_text v = renderPieces (textPieces v)
  | .null => rfl
  | .str s => by simp [adf_to_text, textPieces, renderPieces, renderPiece, String.append_empty]
  | .arr xs => by
    simp only [adf_to_text, textPieces]
    exact adf_renderPiecesArr xs
  | .obj kvs => by
    cases kvs with
    | nil => rfl
    | cons k v rest =>
      have hc := contentRenderPieces (JObj.cons k v rest)
      simp only [adf_to_text, textPieces, JObj.isEmpty, Bool.false_eq_true, if_false]
      split_ifs
      · simp [renderPieces, renderPiece, String.append_empty]
      · simp [renderPieces, renderPiece, String.append_empty]
      · rw [hc, renderPieces_append]
        simp [renderPieces, renderPiece, String.append_empty]
      · exact hc
termination_by structural v => v

theorem adf_renderPiecesArr : (xs : JArr) → adf_to_textArr xs = renderPieces (textPiecesArr xs)
  | .nil => rfl
  | .cons v rest => by
    simp only [adf_to_textArr, textPiecesArr]
    rw [adf_renderPieces v, adf_renderPiecesArr rest, renderPieces_append]
termination_by structural xs => xs

theorem contentRenderPieces : (kvs : JObj) → contentText kvs = renderPieces (contentPieces kvs)
  | .nil => rfl
  | .cons k v rest => by
    simp only [contentText, contentPieces]
    split
    · exact adf_renderPieces v
    · exact contentRenderPieces rest
termination_by structural kvs => kvs

end

mutual

theorem piecesLeaf_eq : (v : JVal) → (textPieces v).filterMap pieceLeaf = leafTexts v
  | .null => rfl
  | .str s => by simp [textPieces, leafTexts, pieceLeaf]
  | .arr xs => by
    simp only [textPieces, leafTexts]
    exact piecesLeafArr_eq xs
  | .obj kvs => by
    cases kvs with
    | nil => rfl
    | cons k v rest =>
      have hc := piecesLeafContent_eq (JObj.cons k v rest)
      simp only [textPieces, leafTexts, JObj.isEmpty, Bool.false_eq_true, if_false]
      split_ifs
      · simp [pieceLeaf]
      · simp [pieceLeaf]
      · rw [List.filterMap_append, hc]
        simp [pieceLeaf]
      · exact hc
termination_by structural v => v

theorem piecesLeafArr_eq :
    (xs : JArr) → (textPiecesArr xs).filterMap pieceLeaf = leafTextsArr xs
  | .nil => rfl
  | .cons v rest => by
    simp only [textPiecesArr, leafTextsArr]
    rw [List.filterMap_append, piecesLeaf_eq v, piecesLeafArr_eq rest]
termination_by structural xs => xs

theorem piecesLeafContent_eq :
    (kvs : JObj) → (contentPieces kvs).filterMap pieceLeaf = leafTextsContent kvs
  | .nil => rfl
  | .cons k v rest => by
    simp only [contentPieces, leafTextsContent]
    split
    · exact piecesLeaf_eq v
    · exact piecesLeafContent_eq rest
termination_by structural kvs => kvs

end

mutual

theorem adfPy_eq_adf :
    (v : JVal) → wfText v = true → adf_to_textPy v = Except.ok (.s (adf_to_text v))
  | .null, _ => rfl
  | .str _, _ => rfl
  | .arr xs, h => by
    simp only [adf_to_textPy, adf_to_text]
    rw [adfPyArr_eq xs (by simpa [wfText] using h)]
  | .obj kvs, h => by
    cases kvs with
    | nil => rfl
    | cons k v rest =>
      have hw : textOk (JObj.cons k v rest) = true ∧
          wfTextObj (JObj.cons k v rest) = true := by
        simpa [wfText, Bool.and_eq_true] using h
      simp only [adf_to_textPy, adf_to_text, JObj.isEmpty, Bool.false_eq_true, if_false]
      split_ifs with h1 h2 h3
      · have h4 := hw.1
        rw [textOk, if_pos h1] at h4
        cases hm : (JObj.cons k v rest).lookup "text" with
        | none => simp [textValue, hm]
        | some w =>
          cases w with
          | str s => simp [textValue, hm]
          | null => rw [hm] at h4; simp at h4
          | arr a => rw [hm] at h4; simp at h4
          | obj o => rw [hm] at h4; simp at h4
      · rfl
      · simp [contentPy_eq (JObj.cons k v rest) hw.2, pyRet_fstr, h3]
      · simp [contentPy_eq (JObj.cons k v rest) hw.2, h3]
termination_by structural v => v

theorem adfPyArr_eq :
    (xs : JArr) → wfTextArr xs = true → adf_to_textPyArr xs = Except.ok (adf_to_textArr xs)
  | .nil, _ => rfl
  | .cons v rest, h => by
    have hp : wfText v = true ∧ wfTextArr rest = true := by
      simpa [wfTextArr, Bool.and_eq_true] using h
    simp only [adf_to_textPyArr, adf_to_textArr]
    rw [adfPy_eq_adf v hp.1, adfPyArr_eq rest hp.2]
termination_by structural xs => xs

theorem contentPy_eq :
    (kvs : JObj) → wfTextObj kvs = true → contentTextPy kvs = Except.ok (.s (contentText kvs))
  | .nil, _ => rfl
  | .cons k v rest, h => by
    have hp : wfText v = true ∧ wfTextObj rest = true := by
      simpa [wfTextObj, Bool.and_eq_true] using h
    simp only [contentTextPy, contentText]
    split
    · exact adfPy_eq_adf v hp.1
    · exact contentPy_eq rest hp.2
termination_by structural kvs => kvs

end

theorem buildComments_body_flat :
    (xs : JArr) → ∀ c ∈ buildComments xs, ∃ src, c.body = adf_to_text src ∧
      (wfText src = true → adf_to_textPy src = Except.ok (.s c.body))
  | .nil => by intro c hc; simp [buildComments] at hc
  | .cons j rest => by
    intro c hc
    rcases List.mem_cons.mp hc with h | h
    · refine ⟨jgetD j "body" (.obj .nil), by rw [h], fun hwf => ?_⟩
      rw [adfPy_eq_adf _ hwf, h]
    · exact buildComments_body_flat rest c h

/-- C2 counterexample: at the tree paragraph{"content":
text-node{"text": {"f": "v"}}} the program returns "{'f': 'v'}\n" — the
text arm returns the dict stored under "text" raw, and the paragraph
f-string renders it — so the input's field name "f", wrapped in repr
markup, appears in the flattened output.  The string of nothing but leaf
contents and newlines for this tree would be "\n", which the output is
not, refuting the claim on its unrestricted domain (the tree violates the
string-text-value condition, `wfText cexDoc = false`). -/
theorem adf_output_markup_leak_counterexample :
    adf_to_textPy cexDoc = Except.ok (.s "\x7b\x27f\x27: \x27v\x27\x7d\n") ∧
    "\x7b\x27f\x27: \x27v\x27\x7d\n" = "\x7b\x27" ++ "f" ++ "\x27: \x27v\x27\x7d\n" ∧
    renderPieces (textPieces cexDoc) = "\n" ∧
    "\x7b\x27f\x27: \x27v\x27\x7d\n" ≠ "\n" ∧
    wfText cexDoc = false :=
  ⟨rfl, rfl, rfl, by decide, rfl⟩

/-- C2 (amended): for every tree whose text nodes carry string (or
absent) "text" values, the program's flattener output (faithful model
`adf_to_textPy`) is a string, equal to the string-valued model's output,
and that output is the in-order concatenation of the text leaf contents
and newline characters (one fragment per text leaf, hardBreak or closing
paragraph), with the non-newline fragments exactly the leaf contents in
leaf order — no node-type tag or field name survives.  In a canonical
issue the description and every comment body are such flattener outputs,
and coincide with the program's output whenever their source tree
satisfies the same condition. -/
theorem adf_output_only_leaf_text_and_newlines :
    (∀ v : JVal, wfText v = true →
      adf_to_textPy v = Except.ok (.s (adf_to_text v)) ∧
      adf_to_text v = renderPieces (textPieces v) ∧
      (textPieces v).filterMap pieceLeaf = leafTexts v) ∧
    (∀ (base_url issue_key : String) (issue comments : JVal),
      ((buildIssue base_url issue_key issue comments).description =
          adf_to_text (jgetD (jgetD issue "fields" (.obj .nil)) "description" (.obj .nil)) ∧
        (wfText (jgetD (jgetD issue "fields" (.obj .nil)) "description" (.obj .nil)) = true →
          adf_to_textPy (jgetD (jgetD issue "fields" (.obj .nil)) "description" (.obj .nil)) =
            Except.ok (.s (buildIssue base_url issue_key issue comments).description))) ∧
      ∀ c ∈ (buildIssue base_url issue_key issue comments).comments,
        ∃ src, c.body = adf_to_text src ∧
          (wfText src = true → adf_to_textPy src = Except.ok (.s c.body))) :=
  ⟨fun v hwf => ⟨adfPy_eq_adf v hwf, adf_renderPieces v, piecesLeaf_eq v⟩,
   fun _ _ _ comments =>
    ⟨⟨rfl, fun hwf => adfPy_eq_adf _ hwf⟩,
     fun c hc => buildComments_body_flat (asArr comments) c hc⟩⟩

theorem adf_output_only_leaf_text_and_newlines_witness :
    (adf_to_textPy twoLevelDoc = Except.ok (.s (adf_to_text twoLevelDoc)) ∧
      adf_to_text twoLevelDoc = renderPieces (textPieces twoLevelDoc) ∧
      (textPieces twoLevelDoc).filterMap pieceLeaf = leafTexts twoLevelDoc) ∧
    ∃ src, (CommentRecord.mk .null .null "b").body = adf_to_text src ∧
      (wfText src = true → adf_to_textPy src = Except.ok (.s "b")) :=
  ⟨adf_output_only_leaf_text_and_newlines.1 twoLevelDoc rfl,
   (adf_output_only_leaf_text_and_newlines.2 "https://example" "K"
     sampleIssueJson sampleCommentsJson).2 ⟨.null, .null, "b"⟩ (List.Mem.head _)⟩

theorem with_retryGo_ok {ε α : Type} (op : Nat → Except ε α) (base : ℚ) (v : α) :
    ∀ (k rem i : Nat) (le : Option ε), k < rem →
      (∀ j, j < k → ∃ e, op (i + j) = Except.error e) →
      op (i + k) = Except.ok v →
      with_retryGo op base rem i le =
        ⟨Except.ok v, k + 1, (List.range k).map fun j => base * 2 ^ (i + j)⟩ := by
  intro k
  induction k with
  | zero =>
    intro rem i le hlt _ hsucc
    cases rem with
    | zero => omega
    | succ rem =>
      simp [with_retryGo, show op i = Except.ok v by simpa using hsucc]
  | succ k ih =>
    intro rem i le hlt hfail hsucc
    cases rem with
    | zero => omega
    | succ rem =>
      obtain ⟨e, he⟩ := hfail 0 (Nat.succ_pos k)
      rw [Nat.add_zero] at he
      have hrem : k < rem := by omega
      have hfail2 : ∀ j, j < k → ∃ e2, op (i + 1 + j) = Except.error e2 := by
        intro j hj
        obtain ⟨e2, he2⟩ := hfail (j + 1) (by omega)
        exact ⟨e2, by rw [← he2]; congr 1; omega⟩
      have hsucc2 : op (i + 1 + k) = Except.ok v := by rw [← hsucc]; congr 1; omega
      have hr := ih rem (i + 1) (some e) hrem hfail2 hsucc2
      have hlist : (List.range (k + 1)).map (fun j => base * 2 ^ (i + j)) =
          base * 2 ^ i :: (List.range k).map fun j => base * 2 ^ (i + 1 + j) := by
        rw [List.range_succ_eq_map, List.map_cons, List.map_map]
        refine congrArg₂ _ (by rw [Nat.add_zero]) ?_
        refine List.map_congr_left fun a _ => ?_
        simp only [Function.comp_apply]
        congr 1
        congr 1
        omega
      have hne : rem ≠ 0 := by omega
      simp [with_retryGo, he, hr, hne, hlist]

/-- C3: an operation that fails on its first k attempts (k below the
retry bound) and succeeds on attempt k+1 makes `with_retry` return that
attempt's result after exactly k+1 invocations, sleeping
`base_sleep * 2 ^ i` seconds after the i-th failed attempt, 0-indexed. -/
theorem with_retry_success_after_failures {ε α : Type} (op : Nat → Except ε α)
    (retries : Int) (base : ℚ) (k : Nat) (v : α)
    (hk : (k : Int) < retries)
    (hfail : ∀ j, j < k → ∃ e, op j = Except.error e)
    (hsucc : op k = Except.ok v) :
    with_retry op retries base =
      ⟨Except.ok v, k + 1, (List.range k).map fun j => base * 2 ^ j⟩ := by
  have hk2 : k < retries.toNat := by omega
  have h := with_retryGo_ok op base v k retries.toNat 0 none hk2
    (by intro j hj; simpa using hfail j hj) (by simpa using hsucc)
  rw [with_retry, h]
  refine congrArg _ (List.map_congr_left fun a _ => ?_)
  rw [Nat.zero_add]

theorem with_retry_success_after_failures_witness :
    with_retry (fun i => if i < 2 then (Except.error "boom" : Except String Nat) else Except.ok 7)
      3 (1/2) = ⟨Except.ok 7, 3, [1/2, 1]⟩ := by
  have h := with_retry_success_after_failures
    (fun i => if i < 2 then (Except.error "boom" : Except String Nat) else Except.ok 7)
    3 (1/2) 2 7 (by norm_num)
    (fun j hj => ⟨"boom", by simp [hj]⟩) (by simp)
  rw [h]
  norm_num [List.range_succ]

/-- C4: an operation failing on every attempt makes `with_retry` with
3 retries invoke it exactly 3 times, sleep exactly twice in between, and
raise the error recorded from the third attempt. -/
theorem with_retry_exhausts_raises_last {ε α : Type} (op : Nat → Except ε α) (base : ℚ)
    (e0 e1 e2 : ε)
    (h0 : op 0 = Except.error e0) (h1 : op 1 = Except.error e1)
    (h2 : op 2 = Except.error e2) :
    with_retry op 3 base = ⟨Except.error (some e2), 3, [base, base * 2]⟩ := by
  have h3 : (3 : Int).toNat = 3 := rfl
  norm_num [with_retry, with_retryGo, h0, h1, h2, h3]

theorem with_retry_exhausts_raises_last_witness :
    with_retry (fun i => (Except.error i : Except Nat Nat)) 3 1 =
      ⟨Except.error (some 2), 3, [1, 2]⟩ := by
  have h := with_retry_exhausts_raises_last (fun i => (Except.error i : Except Nat Nat))
    1 0 1 2 rfl rfl rfl
  rw [h]
  norm_num

/-- C10: with a non-positive retry count the loop body never runs, the
wrapped operation is never invoked, and the call ends at `raise last_err`
with `last_err` still `None` — no result and no operation error, modelled
as `Except.error none`. -/
theorem with_retry_nonpos_retries {ε α : Type} (op : Nat → Except ε α)
    (retries : Int) (base : ℚ) (h : retries ≤ 0) :
    with_retry op retries base = ⟨Except.error none, 0, []⟩ := by
  have h0 : retries.toNat = 0 := Int.toNat_of_nonpos h
  simp [with_retry, h0, with_retryGo]

theorem with_retry_nonpos_retries_witness :
    with_retry (fun i => (Except.error i : Except Nat Nat)) (-1) 1 =
      ⟨Except.error none, 0, []⟩ :=
  with_retry_nonpos_retries _ (-1) 1 (by norm_num)

/-- C5: when any required connection setting is unset, `fetch_jira_issue`
raises the configuration error (`HTTPException` with status 500 and a
"Missing environment variables: ..." detail) before issuing any network
request to either endpoint. -/
theorem fetch_missing_env_no_network (env : Env) (issue_key : String)
    (getIssue getComments : Nat → Except AppError HttpResponse)
    (h : env.jira_base_url = "" ∨ env.jira_email = "" ∨ env.jira_api_token = "") :
    ∃ names, names ≠ [] ∧
      fetch_jira_issue env issue_key getIssue getComments =
        ⟨.error (.http 500
          ("Missing environment variables: " ++ String.intercalate ", " names)), 0, 0⟩ := by
  have hne : missingEnv env ≠ [] := by
    simp only [missingEnv]
    rcases h with h | h | h
    · exact List.ne_nil_of_mem (List.mem_map.mpr
        ⟨("JIRA_BASE_URL", env.jira_base_url),
         List.mem_filter.mpr ⟨by simp, by simp [h]⟩, rfl⟩)
    · exact List.ne_nil_of_mem (List.mem_map.mpr
        ⟨("JIRA_EMAIL", env.jira_email),
         List.mem_filter.mpr ⟨by simp, by simp [h]⟩, rfl⟩)
    · exact List.ne_nil_of_mem (List.mem_map.mpr
        ⟨("JIRA_API_TOKEN", env.jira_api_token),
         List.mem_filter.mpr ⟨by simp, by simp [h]⟩, rfl⟩)
  refine ⟨missingEnv env, hne, ?_⟩
  have he : ensure_env env = .error (.http 500
      ("Missing environment variables: " ++ String.intercalate ", " (missingEnv env))) := by
    simp [ensure_env, hne]
  simp [fetch_jira_issue, he]

theorem fetch_missing_env_no_network_witness :
    ∃ names, names ≠ [] ∧
      fetch_jira_issue ⟨"", "dev@example.com", "tok"⟩ "PROJ-1"
        (fun _ => Except.error (.exn "net down")) (fun _ => Except.error (.exn "net down")) =
      ⟨.error (.http 500
        ("Missing environment variables: " ++ String.intercalate ", " names)), 0, 0⟩ :=
  fetch_missing_env_no_network ⟨"", "dev@example.com", "tok"⟩ "PROJ-1" _ _ (Or.inl rfl)

/-- C6: with the configuration present and both network calls delivering
responses, a non-success status code on either response makes
`fetch_jira_issue` raise an `HTTPException` carrying that status code and
the response body text; in particular a 404 on the comments call fails the
whole fetch even when the metadata call returned 200, and no canonical
issue is returned. -/
theorem fetch_non_success_status_fails (env : Env) (issue_key : String)
    (getIssue getComments : Nat → Except AppError HttpResponse)
    (r1 r2 : HttpResponse)
    (henv : ensure_env env = Except.ok ())
    (h1 : (with_retry getIssue 3 (1/2)).result = Except.ok r1)
    (h2 : (with_retry getComments 3 (1/2)).result = Except.ok r2) :
    (r1.status_code ≠ 200 →
      (fetch_jira_issue env issue_key getIssue getComments).result =
        Except.error (.http r1.status_code ("Failed to fetch issue: " ++ r1.text))) ∧
    (r1.status_code = 200 → r2.status_code ≠ 200 →
      (fetch_jira_issue env issue_key getIssue getComments).result =
        Except.error (.http r2.status_code ("Failed to fetch comments: " ++ r2.text))) := by
  constructor
  · intro hs
    simp only [fetch_jira_issue, henv, h1, h2]
    simp [hs]
  · intro hs1 hs2
    simp only [fetch_jira_issue, henv, h1, h2]
    simp [hs1, hs2]

theorem fetch_non_success_status_fails_witness :
    (fetch_jira_issue ⟨"https://jira.example.com", "dev@example.com", "tok"⟩ "PROJ-1"
      (fun _ => Except.ok ⟨200, "body", .null⟩)
      (fun _ => Except.ok ⟨404, "Issue does not exist", .null⟩)).result =
    Except.error (.http 404 ("Failed to fetch comments: " ++ "Issue does not exist")) :=
  (fetch_non_success_status_fails ⟨"https://jira.example.com", "dev@example.com", "tok"⟩
    "PROJ-1" (fun _ => Except.ok ⟨200, "body", .null⟩)
    (fun _ => Except.ok ⟨404, "Issue does not exist", .null⟩)
    ⟨200, "body", .null⟩ ⟨404, "Issue does not exist", .null⟩
    rfl rfl rfl).2 rfl (by decide)

/-- C7: with no model credential configured (empty `OPENAI_API_KEY`, so no
client object), `llm_summarize_issue` deterministically returns the
templated result — summary synthesized from the issue's key, status and
priority, the fixed unavailability notice as root cause, confidence "low"
and the one-element evidence list `[issue key]` — performing no model
call. -/
theorem llm_no_credential_deterministic (issue : CanonicalIssue) :
    llm_summarize_issue "" issue =
      (Except.ok
        { summary := .str (pyStr issue.key ++ " is " ++ pyStr issue.status ++
            " with priority " ++ pyStr issue.priority ++ ".")
          root_cause := .str "OpenAI key not configured; LLM analysis unavailable."
          confidence := .str "low"
          evidence := .arr (.cons issue.key .nil) }, 0) := rfl

theorem llm_no_credential_deterministic_witness :
    llm_summarize_issue "" sampleIssue =
      (Except.ok
        { summary := .str "PROJ-1 is Open with priority High."
          root_cause := .str "OpenAI key not configured; LLM analysis unavailable."
          confidence := .str "low"
          evidence := .arr (.cons (.str "PROJ-1") .nil) }, 0) :=
  llm_no_credential_deterministic sampleIssue

/-- C8: contrary to the claim, a configured model credential makes
`llm_summarize_issue` raise `NameError("name 'json' is not defined")`
before any model call, because the module never imports `json` — the parse
step is unreachable.  The parse pipeline the claim describes (lines
169-185 of the source, modelled as `parse_llm_output`) would behave as
claimed: the fenced sample response maps to
AnalysisResult(summary "s", root_cause "r", confidence "high",
evidence ["e1"]), and an object without "confidence"/"evidence" keys gets
confidence "low" and empty evidence. -/
theorem llm_credentialed_raises_name_error :
    (llm_summarize_issue "sk-test" sampleIssue =
      (Except.error (.exn "name \x27json\x27 is not defined"), 0)) ∧
    parse_llm_output
      (some "```json\n\x7b\"summary\":\"s\",\"root_cause\":\"r\",\"confidence\":\"high\",\"evidence\":[\"e1\"]\x7d\n```")
      (.str "K") =
      { summary := .str "s", root_cause := .str "r", confidence := .str "high",
        evidence := .arr (.cons (.str "e1") .nil) } ∧
    analysisFromObj (.cons "summary" (.str "s") (.cons "root_cause" (.str "r") .nil)) =
      { summary := .str "s", root_cause := .str "r", confidence := .str "low",
        evidence := .arr .nil } :=
  ⟨rfl, rfl, rfl⟩

/-- C9: when an internal shared secret is configured and the request
header does not match it, the dispatcher returns the envelope
success=false, error="Unauthorized" (no HTTP-level failure: the envelope
is returned normally) and invokes neither the issue fetcher nor the
summarizer. -/
theorem call_tool_unauthorized_no_dispatch (internal_api_token : String)
    (x_internal_token : Option String) (tool_name : String) (parameters : JVal)
    (now : String) (fetchOp : Except AppError CanonicalIssue)
    (llmOp : CanonicalIssue → Except AppError AnalysisResult)
    (hcfg : internal_api_token ≠ "")
    (hmis : x_internal_token ≠ some internal_api_token) :
    call_tool internal_api_token x_internal_token tool_name parameters now fetchOp llmOp =
      ⟨⟨false, tool_name, none, some "Unauthorized"⟩, 0, 0⟩ := by
  simp [call_tool, hcfg, hmis]

theorem call_tool_unauthorized_no_dispatch_witness :
    call_tool "secret" (some "wrong") "fetch_jira" (.obj .nil) "2026-10-12T00:00:00+00:00"
      (Except.error (.exn "unreachable")) (fun _ => Except.error (.exn "unreachable")) =
      ⟨⟨false, "fetch_jira", none, some "Unauthorized"⟩, 0, 0⟩ :=
  call_tool_unauthorized_no_dispatch "secret" (some "wrong") "fetch_jira" (.obj .nil)
    "2026-10-12T00:00:00+00:00" (Except.error (.exn "unreachable"))
    (fun _ => Except.error (.exn "unreachable")) (by decide) (by decide)
